import Mathlib

/-!
A shallow embedding of src/android/run_tests.py, the orchestration core of a
device test runner.  Pure Python functions are translated into Lean
functions; the collaborator modules that are not part of this repository
(android_commands, single_test_runner, test_result, base_test_sharder,
emulator) are abstracted into an environment record of uninterpreted
functions, except where the specification describes their behaviour, in
which case they are modelled from the spec and marked as such.
-/

namespace RunTestsModel

/-- Modelled from the spec: test_result.BaseTestResult (test_result.py is not
under src/).  One record per test case: identifier plus diagnostic text
(spec section 3, TestOutcome). -/
structure BaseTestResult where
  name : String
  log : String
  deriving DecidableEq

/-- Modelled from the spec: test_result.TestResults (test_result.py is not
under src/).  Lists of per-test outcomes plus the two status booleans
(spec section 3, ResultSet). -/
structure TestResults where
  ok : List BaseTestResult
  failed : List BaseTestResult
  timed_out : Bool
  overall_fail : Bool
  deriving DecidableEq

namespace TestResults

/-- Modelled from the spec: the identity element of the merge
(spec section 4.1). -/
def empty : TestResults :=
  { ok := [], failed := [], timed_out := false, overall_fail := false }

/-- Modelled from the spec: merge of two partial result sets (spec section 3):
union of the outcome lists and an OR over the two booleans. -/
def merge (a b : TestResults) : TestResults :=
  { ok := a.ok ++ b.ok, failed := a.failed ++ b.failed,
    timed_out := a.timed_out || b.timed_out,
    overall_fail := a.overall_fail || b.overall_fail }

/-- Modelled from the spec: TestResults.FromTestResults folds the merge over
the partial results of all runners (spec section 4.1, Merge). -/
def FromTestResults (rs : List TestResults) : TestResults :=
  rs.foldl merge empty

/-- Modelled from the spec: TestResults.FromOkAndFailed builds a result set
from one partition's outcome lists plus the two status flags
(spec section 4.1, FromPartial). -/
def FromOkAndFailed (ok failed : List BaseTestResult)
    (timed_out overall_fail : Bool) : TestResults :=
  { ok := ok, failed := failed, timed_out := timed_out,
    overall_fail := overall_fail }

end TestResults

/-- Command-line options of run_tests.py (main, lines 403-455) as read by the
orchestration core.  Python None-valued strings are modelled as the empty
string.  The repeat field is the retry budget; the claims quantify over
non-negative budgets, so it is a Nat (the CLI default is 2, line 441). -/
structure Options where
  test_suite : String
  gtest_filter : String
  test_arguments : String
  rebaseline : Bool
  timeout : Nat
  performance_test : Bool
  cleanup_test_files : Bool
  tool : String
  log_dump : String
  apk : Bool
  annotate : Bool
  use_emulator : Nat
  use_xvfb : Bool
  fast_and_loose : Bool
  «repeat» : Nat
  deriving DecidableEq

/-- Observable record of one SingleTestRunner construction plus Run
invocation: the arguments the orchestrator hands to the runner
collaborator. -/
structure RunCall where
  device : String
  test_suite : String
  test_filter : String
  test_arguments : String
  timeout : Nat
  index : Nat
  deriving DecidableEq

/-- Observable record of one UpdateFilter call (a disabled-list write): the
index of the writing runner and the names of the failed tests written. -/
structure FilterWrite where
  writer_index : Nat
  failed_names : List String
  deriving DecidableEq

/-- Environment of collaborators outside src/: the attached devices
(android_commands.GetAttachedDevices), the emulator device names, the test
package listing (GetAllTests), the persisted disabled list
(GetDisabledTests), glob matching (fnmatch.fnmatch), file existence
(os.path.exists) and the outcome a runner reports for a given invocation
(SingleTestRunner.Run). -/
structure Env where
  attached_devices : List String
  emulator_device : Nat → String
  all_tests : String → List String
  disabled_tests : String → List String
  fnmatch : String → String → Bool
  path_exists : String → Bool
  run_outcome : RunCall → TestResults

/-- Source: run_tests.py lines 69-77, the built-in suite catalog. -/
def _TEST_SUITES : List String :=
  ["base_unittests", "content_unittests", "gpu_unittests", "ipc_tests",
   "net_unittests", "sql_unittests", "sync_unit_tests", "ui_unittests"]

/-- Source: FullyQualifiedTestSuites (lines 80-96).  The absolute CHROME_DIR
path is abbreviated to the relative out/Release prefix; only the shape and
non-emptiness of the paths matter to the orchestration core. -/
def FullyQualifiedTestSuites (apk : Bool) : List String :=
  if apk then
    _TEST_SUITES.map (fun t => "out/Release/" ++ t ++ "_apk/ChromeNativeTests-debug.apk")
  else
    _TEST_SUITES.map (fun t => "out/Release/" ++ t)

/-- Python list slice l[a:b] for non-negative bounds. -/
def pySlice (l : List α) (a b : Nat) : List α :=
  (l.take b).drop a

/-- Source: the extension test of RunTests (line 190), which asks whether
os.path.splitext leaves the .apk extension; equivalently the path ends in
.apk (identical except for a degenerate basename that is exactly the bare
extension). -/
def hasApkExt (s : String) : Bool :=
  ".apk".data.isSuffixOf s.data

/-- Source: the per-suite loop of RunTests (lines 204-222): one
SingleTestRunner per suite (device fixed, runner index 0, filter as
requested), results collected in order and, when rebaseline is set,
UpdateFilter called with that run's failed list (lines 215-216). -/
def runTestsLoop (env : Env) (opts : Options) (device : String)
    (suites : List String) : TestResults × List RunCall × List FilterWrite :=
  let calls := suites.map (fun t =>
    { device := device, test_suite := t, test_filter := opts.gtest_filter,
      test_arguments := opts.test_arguments, timeout := opts.timeout,
      index := 0 : RunCall })
  let results := calls.map env.run_outcome
  let writes :=
    if opts.rebaseline then
      results.map (fun r =>
        { writer_index := 0, failed_names := r.failed.map (fun b => b.name) })
    else []
  (TestResults.FromTestResults results, calls, writes)

/-- Source: RunTests (lines 163-234).  An explicitly named suite that is not
an existing file and not an .apk reference yields one synthetic failed
record with both flags false and no runner invocation (lines 187-197);
otherwise the named suite, or the full catalog when no suite is named, is
run on the given device. -/
def RunTests (env : Env) (opts : Options) (device : String) :
    TestResults × List RunCall × List FilterWrite :=
  if opts.test_suite ≠ "" then
    if !env.path_exists opts.test_suite && !hasApkExt opts.test_suite then
      (TestResults.FromOkAndFailed []
        [{ name := opts.test_suite, log := "" }] false false, [], [])
    else
      runTestsLoop env opts device [opts.test_suite]
  else
    runTestsLoop env opts device (FullyQualifiedTestSuites opts.apk)

/-- Source: TestSharder constructor (lines 240-264): the candidate list is
GetAllTests, filtered, when not rebaselining, down to the tests matching no
disabled pattern. -/
def sharderTests (env : Env) (opts : Options) : List String :=
  let all_tests := env.all_tests opts.test_suite
  if !opts.rebaseline then
    all_tests.filter (fun t =>
      !((env.disabled_tests opts.test_suite).any (fun p => env.fnmatch t p)))
  else
    all_tests

/-- Source: the slice computed by TestSharder.CreateShardedTestRunner
(lines 276-277): shard_size is the floor of the test count over the device
count, and shard index receives
tests[index * shard_size : (index + 1) * shard_size]. -/
def shardTestList (tests : List String) (num_devices index : Nat) : List String :=
  let shard_size := tests.length / num_devices
  pySlice tests (index * shard_size) ((index + 1) * shard_size)

/-- Source: TestSharder.CreateShardedTestRunner (lines 266-282): the runner
for one device index, whose filter is the colon-join of that index's
slice. -/
def CreateShardedTestRunner (opts : Options) (tests : List String)
    (devices : List String) (index : Nat) : RunCall :=
  { device := devices.getD index "", test_suite := opts.test_suite,
    test_filter := String.intercalate ":" (shardTestList tests devices.length index),
    test_arguments := opts.test_arguments, timeout := opts.timeout,
    index := index }

/-- Modelled from the spec: base_test_sharder.BaseTestSharder.RunShardedTests
is not under src/.  Per spec section 4.2 it creates one runner per target via
CreateShardedTestRunner, runs them, merges the partial results and invokes
OnTestsCompleted once with the merged result.  OnTestsCompleted itself is
source (lines 284-288): it writes the disabled list through the runner at
index 0 exactly when the merged failed list is non-empty and rebaseline is
set. -/
def RunShardedTests (env : Env) (opts : Options) (devices : List String) :
    TestResults × List RunCall × List FilterWrite :=
  let tests := sharderTests env opts
  let calls := (List.range devices.length).map
    (fun i => CreateShardedTestRunner opts tests devices i)
  let merged := TestResults.FromTestResults (calls.map env.run_outcome)
  let writes :=
    if !merged.failed.isEmpty && opts.rebaseline then
      [{ writer_index := 0,
         failed_names := merged.failed.map (fun b => b.name) : FilterWrite }]
    else []
  (merged, calls, writes)

/-- Source: device acquisition in _RunATestSuite (lines 305-320): emulator
devices when use_emulator is non-zero, otherwise the attached devices. -/
def devList (env : Env) (use_emulator : Nat) : List String :=
  if use_emulator ≠ 0 then (List.range use_emulator).map env.emulator_device
  else env.attached_devices

/-- Source: the sharding condition of _RunATestSuite (lines 326-327): more
than one device, a suite explicitly set, no gtest filter and not a
performance test. -/
def shardedSelected (opts : Options) (num_devices : Nat) : Bool :=
  decide (1 < num_devices) && !(opts.test_suite == "") &&
    (opts.gtest_filter == "") && !opts.performance_test

/-- Observable summary of one _RunATestSuite attempt: the option flags in
force, which path was selected, the runner invocations, the disabled-list
writes and the resulting TestResults (none when no device was available). -/
structure Attempt where
  fast_and_loose : Bool
  repeat_left : Nat
  sharded : Bool
  runner_calls : List RunCall
  filter_writes : List FilterWrite
  results : Option TestResults
  deriving DecidableEq

/-- Source: one attempt of _RunATestSuite (lines 305-342): acquire the
devices, stop at once when there are none (line 322), otherwise select the
sharded or the single-device path and run it on the first device. -/
def runAttempt (env : Env) (opts : Options) : Attempt :=
  let devices := devList env opts.use_emulator
  if devices.isEmpty then
    { fast_and_loose := opts.fast_and_loose, repeat_left := opts.«repeat»,
      sharded := false, runner_calls := [], filter_writes := [],
      results := none }
  else if shardedSelected opts devices.length then
    let r := RunShardedTests env opts devices
    { fast_and_loose := opts.fast_and_loose, repeat_left := opts.«repeat»,
      sharded := true, runner_calls := r.2.1, filter_writes := r.2.2,
      results := some r.1 }
  else
    let r := RunTests env opts (devices.headD "")
    { fast_and_loose := opts.fast_and_loose, repeat_left := opts.«repeat»,
      sharded := false, runner_calls := r.2.1, filter_writes := r.2.2,
      results := some r.1 }

/-- Source: _RunATestSuite (lines 292-356) including the timeout retry tail
(lines 350-356): on a timed-out result with a non-zero repeat budget, set
fast_and_loose, decrement repeat and recurse; otherwise return the count of
failed tests of the final attempt (or the literal 1 of line 324 when no
device was attached).  The second component is the final mutated options,
the third the list of attempts in order. -/
def runATestSuite (env : Env) (opts : Options) : Nat × Options × List Attempt :=
  match (runAttempt env opts).results with
  | none => (1, opts, [runAttempt env opts])
  | some tr =>
    if h : tr.timed_out = true ∧ opts.«repeat» ≠ 0 then
      let r := runATestSuite env
        { opts with fast_and_loose := true, «repeat» := opts.«repeat» - 1 }
      (r.1, r.2.1, runAttempt env opts :: r.2.2)
    else
      (tr.failed.length, opts, [runAttempt env opts])
termination_by opts.«repeat»
decreasing_by
  exact Nat.sub_lt (Nat.pos_of_ne_zero h.2) Nat.one_pos

/-- Source: the suite resolution of Dispatch (lines 379-382): the explicit
suite when one is set, otherwise the full catalog. -/
def dispatchSuiteList (opts : Options) : List String :=
  if opts.test_suite ≠ "" then [opts.test_suite]
  else FullyQualifiedTestSuites opts.apk

/-- Source: the loop body of Dispatch (lines 384-386): rebind
options.test_suite to the suite, run _RunATestSuite on the mutated options
and add the returned count to the accumulated failures.  The third component
logs, per suite, the attempts made. -/
def dispatchStep (env : Env) (acc : Nat × Options × List (String × List Attempt))
    (suite : String) : Nat × Options × List (String × List Attempt) :=
  let r := runATestSuite env { acc.2.1 with test_suite := suite }
  (acc.1 + r.1, r.2.1, acc.2.2 ++ [(suite, r.2.2)])

/-- Source: Dispatch (lines 359-392): the help listing returns 0; otherwise
the resolved suites are run in order, the returned failure counts
accumulating into the exit code. -/
def Dispatch (env : Env) (opts : Options) :
    Nat × Options × List (String × List Attempt) :=
  if opts.test_suite = "help" then (0, opts, [])
  else (dispatchSuiteList opts).foldl (dispatchStep env) (0, opts, [])

/-- Attempts of a whole Dispatch invocation, in execution order. -/
def dispatchAttempts (env : Env) (opts : Options) : List Attempt :=
  (((Dispatch env opts).2.2).map Prod.snd).flatten

/-- Failed-set size of the final attempt's results of a suite's attempt log
(0 when no results exist). -/
def suiteFailedTotal (atts : List Attempt) : Nat :=
  match atts.getLast? with
  | some a =>
    match a.results with
    | some r => r.failed.length
    | none => 0
  | none => 0

/-- Failure count one attempt would return as final: the failed-set size of
its results, or the literal 1 of line 324 when no device was available. -/
def attemptContribution (a : Attempt) : Nat :=
  match a.results with
  | some r => r.failed.length
  | none => 1

/-- Fast-and-loose flags of all attempts recorded in a Dispatch log, in
execution order. -/
def fastFlags (log : List (String × List Attempt)) : List Bool :=
  ((log.map Prod.snd).flatten).map (fun a => a.fast_and_loose)

/-- Concrete environment with no attached device and no emulator request,
used to evaluate the orchestrator's zero-target behaviour. -/
def envNoDevices : Env :=
  { attached_devices := [], emulator_device := fun _ => "",
    all_tests := fun _ => [], disabled_tests := fun _ => [],
    fnmatch := fun _ _ => false, path_exists := fun _ => false,
    run_outcome := fun _ => TestResults.empty }

/-- Concrete environment with two attached devices, every suite binary
present, a fixed candidate test list and a runner outcome that fails one
fixed test, used to evaluate the sharded path. -/
def envTwoDevices : Env :=
  { attached_devices := ["dev0", "dev1"], emulator_device := fun _ => "",
    all_tests := fun _ => ["A", "B", "C", "D", "E"],
    disabled_tests := fun _ => [],
    fnmatch := fun _ _ => false, path_exists := fun _ => true,
    run_outcome := fun _ =>
      { ok := [], failed := [{ name := "A", log := "" }],
        timed_out := false, overall_fail := false } }

/-- Concrete environment with one attached device, every suite binary
present and a runner outcome that always times out with one failed test,
used to evaluate the retry loop. -/
def envOneDeviceTimeout : Env :=
  { attached_devices := ["dev0"], emulator_device := fun _ => "",
    all_tests := fun _ => ["A", "B"], disabled_tests := fun _ => [],
    fnmatch := fun _ _ => false, path_exists := fun _ => true,
    run_outcome := fun _ =>
      { ok := [], failed := [{ name := "B", log := "" }],
        timed_out := true, overall_fail := false } }

/-- Concrete environment with one attached device and no suite binary
present, used to evaluate the unrecognized-suite path. -/
def envOneDeviceMissing : Env :=
  { attached_devices := ["dev0"], emulator_device := fun _ => "",
    all_tests := fun _ => [], disabled_tests := fun _ => [],
    fnmatch := fun _ _ => false, path_exists := fun _ => false,
    run_outcome := fun _ => TestResults.empty }

/-- Concrete baseline options: no explicit suite, no filter, no emulator,
the CLI defaults for the flags and the default retry budget of 2. -/
def optsBase : Options :=
  { test_suite := "", gtest_filter := "", test_arguments := "",
    rebaseline := false, timeout := 0, performance_test := false,
    cleanup_test_files := false, tool := "", log_dump := "", apk := false,
    annotate := true, use_emulator := 0, use_xvfb := false,
    fast_and_loose := false, «repeat» := 2 }

/-- Baseline options with an explicit suite name. -/
def optsWithSuite (s : String) : Options :=
  { optsBase with test_suite := s }

/-- Baseline options with an explicit suite name and rebaseline mode on. -/
def optsRebaseline (s : String) : Options :=
  { optsBase with test_suite := s, rebaseline := true }

theorem runATestSuite_no_device (env : Env) (opts : Options)
    (h : (runAttempt env opts).results = none) :
    runATestSuite env opts = (1, opts, [runAttempt env opts]) := by
  rw [runATestSuite, h]

theorem runATestSuite_retry (env : Env) (opts : Options) (tr : TestResults)
    (h : (runAttempt env opts).results = some tr) (hto : tr.timed_out = true)
    (hr : opts.«repeat» ≠ 0) :
    runATestSuite env opts =
      ((runATestSuite env
          { opts with fast_and_loose := true, «repeat» := opts.«repeat» - 1 }).1,
       (runATestSuite env
          { opts with fast_and_loose := true, «repeat» := opts.«repeat» - 1 }).2.1,
       runAttempt env opts ::
         (runATestSuite env
            { opts with fast_and_loose := true, «repeat» := opts.«repeat» - 1 }).2.2) := by
  rw [runATestSuite, h]
  simp [hto, hr]

theorem runATestSuite_stop (env : Env) (opts : Options) (tr : TestResults)
    (h : (runAttempt env opts).results = some tr)
    (hstop : ¬(tr.timed_out = true ∧ opts.«repeat» ≠ 0)) :
    runATestSuite env opts = (tr.failed.length, opts, [runAttempt env opts]) := by
  rw [runATestSuite, h]
  simp [dif_neg hstop]

theorem runAttempt_results_none_iff (env : Env) (opts : Options) :
    (runAttempt env opts).results = none ↔ devList env opts.use_emulator = [] := by
  unfold runAttempt
  by_cases hd : devList env opts.use_emulator = []
  · simp [hd]
  · have hd2 : (devList env opts.use_emulator).isEmpty = false := by
      simp [List.isEmpty_iff, hd]
    simp only [hd2, Bool.false_eq_true, if_false]
    split <;> simp [hd]

theorem flatten_pySlice (l : List α) (s : Nat) :
    ∀ N, ((List.range N).map (fun i => pySlice l (i * s) ((i + 1) * s))).flatten
      = l.take (N * s) := by
  intro N
  induction N with
  | zero => simp [pySlice]
  | succ n ih =>
    rw [List.range_succ, List.map_append, List.flatten_append, ih]
    simp only [List.map_cons, List.map_nil, List.flatten_cons, List.flatten_nil,
      List.append_nil, pySlice]
    rw [Nat.succ_mul, List.drop_take, Nat.add_sub_cancel_left, ← List.take_add]

/-- Claim C1: for a test list of length L and device count N at least 1, the
sharder assigns to target index i exactly the contiguous slice from
i * floor(L / N) up to but excluding (i + 1) * floor(L / N); the
concatenation of all N shards is the prefix of the list of length
N * floor(L / N), so the trailing L mod N tests belong to no shard; and on
the concrete list A B C D E with 2 targets, target 0 receives A B, target 1
receives C D, and E is in neither shard. -/
theorem claim_C1 (tests : List String) (N : Nat) (hN : 1 ≤ N) :
    (∀ index : Nat,
      shardTestList tests N index
        = pySlice tests (index * (tests.length / N))
            ((index + 1) * (tests.length / N)))
    ∧ ((List.range N).map (fun i => shardTestList tests N i)).flatten
        = tests.take (N * (tests.length / N))
    ∧ shardTestList ["A", "B", "C", "D", "E"] 2 0 = ["A", "B"]
    ∧ shardTestList ["A", "B", "C", "D", "E"] 2 1 = ["C", "D"]
    ∧ "E" ∉ shardTestList ["A", "B", "C", "D", "E"] 2 0
    ∧ "E" ∉ shardTestList ["A", "B", "C", "D", "E"] 2 1 := by
  refine ⟨fun i => rfl, ?_, by decide, by decide, by decide, by decide⟩
  exact flatten_pySlice tests (tests.length / N) N

theorem claim_C1_witness :
    (1 ≤ 2)
    ∧ ((List.range 2).map
        (fun i => shardTestList ["A", "B", "C", "D", "E"] 2 i)).flatten
      = (["A", "B", "C", "D", "E"] : List String).take
          (2 * ((["A", "B", "C", "D", "E"] : List String).length / 2))
    ∧ shardTestList ["A", "B", "C", "D", "E"] 2 0 = ["A", "B"] :=
  ⟨by decide, (claim_C1 ["A", "B", "C", "D", "E"] 2 (by decide)).2.1,
    (claim_C1 ["A", "B", "C", "D", "E"] 2 (by decide)).2.2.1⟩

/-- Claim C9: for a duplicate-free test list and any two distinct target
indices below the device count, the two shards produced by the sharder are
disjoint, so no test is assigned to more than one target. -/
theorem claim_C9 (tests : List String) (N i j : Nat) (hnd : tests.Nodup)
    (hij : i < j) (hjN : j < N) :
    List.Disjoint (shardTestList tests N i) (shardTestList tests N j) := by
  intro a hai haj
  simp only [shardTestList, pySlice] at hai haj
  have h1 : a ∈ tests.take ((i + 1) * (tests.length / N)) :=
    List.drop_subset _ _ hai
  rw [List.drop_take] at haj
  have h2 : a ∈ tests.drop (j * (tests.length / N)) :=
    List.take_subset _ _ haj
  have hle : (i + 1) * (tests.length / N) ≤ j * (tests.length / N) :=
    Nat.mul_le_mul_right _ hij
  exact List.disjoint_take_drop hnd hle h1 h2

theorem claim_C9_witness :
    List.Disjoint (shardTestList ["A", "B", "C", "D", "E"] 2 0)
      (shardTestList ["A", "B", "C", "D", "E"] 2 1) :=
  claim_C9 ["A", "B", "C", "D", "E"] 2 0 1 (by decide) (by decide) (by decide)

/-- Claim C10: the retry loop of the suite dispatcher terminates, performing
at most repeat + 1 attempts in total: a retry occurs only while the budget
is non-zero and each retry decrements the budget by one.  Termination itself
is witnessed by runATestSuite being a total function. -/
theorem claim_C10 (env : Env) (opts : Options) :
    (runATestSuite env opts).2.2.length ≤ opts.«repeat» + 1 := by
  generalize hn : opts.«repeat» = n
  induction n using Nat.strong_induction_on generalizing opts with
  | _ n ih =>
    cases h : (runAttempt env opts).results with
    | none => rw [runATestSuite_no_device env opts h]; simp
    | some tr =>
      by_cases hc : tr.timed_out = true ∧ opts.«repeat» ≠ 0
      · rw [runATestSuite_retry env opts tr h hc.1 hc.2]
        have hlt : opts.«repeat» - 1 < n := by omega
        have := ih (opts.«repeat» - 1) hlt
          { opts with fast_and_loose := true, «repeat» := opts.«repeat» - 1 } rfl
        simp only [List.length_cons]
        omega
      · rw [runATestSuite_stop env opts tr h hc]
        simp

theorem runAttempt_no_device_eq (env : Env) (opts : Options)
    (hd : devList env opts.use_emulator = []) :
    runAttempt env opts =
      { fast_and_loose := opts.fast_and_loose, repeat_left := opts.«repeat»,
        sharded := false, runner_calls := [], filter_writes := [],
        results := none } := by
  unfold runAttempt
  simp [hd]

theorem runAttempt_sharded_eq (env : Env) (opts : Options)
    (hd : devList env opts.use_emulator ≠ [])
    (hs : shardedSelected opts (devList env opts.use_emulator).length = true) :
    runAttempt env opts =
      { fast_and_loose := opts.fast_and_loose, repeat_left := opts.«repeat»,
        sharded := true,
        runner_calls := (RunShardedTests env opts (devList env opts.use_emulator)).2.1,
        filter_writes := (RunShardedTests env opts (devList env opts.use_emulator)).2.2,
        results := some (RunShardedTests env opts (devList env opts.use_emulator)).1 } := by
  unfold runAttempt
  have hd2 : (devList env opts.use_emulator).isEmpty = false := by
    simp [List.isEmpty_iff, hd]
  simp [hd2, hs]

theorem runAttempt_single_eq (env : Env) (opts : Options)
    (hd : devList env opts.use_emulator ≠ [])
    (hs : shardedSelected opts (devList env opts.use_emulator).length = false) :
    runAttempt env opts =
      { fast_and_loose := opts.fast_and_loose, repeat_left := opts.«repeat»,
        sharded := false,
        runner_calls :=
          (RunTests env opts ((devList env opts.use_emulator).headD "")).2.1,
        filter_writes :=
          (RunTests env opts ((devList env opts.use_emulator).headD "")).2.2,
        results :=
          some (RunTests env opts ((devList env opts.use_emulator).headD "")).1 } := by
  unfold runAttempt
  have hd2 : (devList env opts.use_emulator).isEmpty = false := by
    simp [List.isEmpty_iff, hd]
  simp [hd2, hs]

theorem shardedSelected_iff (opts : Options) (n : Nat) :
    shardedSelected opts n = true ↔
      (1 < n ∧ opts.test_suite ≠ "" ∧ opts.gtest_filter = ""
        ∧ opts.performance_test = false) := by
  constructor <;> intro h <;> simp_all [shardedSelected]

theorem foldl_merge_timed_out (rs : List TestResults) :
    ∀ acc : TestResults, (rs.foldl TestResults.merge acc).timed_out
      = (acc.timed_out || rs.any (fun r => r.timed_out)) := by
  induction rs with
  | nil => intro acc; simp
  | cons r rs ih => intro acc; simp [ih, TestResults.merge, Bool.or_assoc]

theorem FromTestResults_timed_out (rs : List TestResults) :
    (TestResults.FromTestResults rs).timed_out
      = rs.any (fun r => r.timed_out) := by
  simp [TestResults.FromTestResults, foldl_merge_timed_out, TestResults.empty]

theorem FromTestResults_singleton (r : TestResults) :
    TestResults.FromTestResults [r] = r := by
  cases r
  simp [TestResults.FromTestResults, TestResults.merge, TestResults.empty]

theorem runTestsLoop_calls (env : Env) (opts : Options) (device : String)
    (suites : List String) (c : RunCall)
    (hc : c ∈ (runTestsLoop env opts device suites).2.1) : c.device = device := by
  simp only [runTestsLoop, List.mem_map] at hc
  obtain ⟨t, _, rfl⟩ := hc
  rfl

theorem RunTests_calls_device (env : Env) (opts : Options) (device : String)
    (c : RunCall) (hc : c ∈ (RunTests env opts device).2.1) : c.device = device := by
  unfold RunTests at hc
  split at hc
  · split at hc
    · simp at hc
    · exact runTestsLoop_calls env opts device _ c hc
  · exact runTestsLoop_calls env opts device _ c hc

/-- Claim C5: with at least one device attached and a suite set (as every
invocation made by Dispatch does, since the resolved suite paths are
non-empty strings), the sharded path is selected exactly when more than one
device is attached, no gtest filter was requested and the run is not a
performance test; otherwise the run goes through RunTests on the first
attached device. -/
theorem claim_C5 (env : Env) (opts : Options)
    (hts : opts.test_suite ≠ "")
    (hdev : devList env opts.use_emulator ≠ []) :
    ((runAttempt env opts).sharded = true ↔
      (1 < (devList env opts.use_emulator).length ∧ opts.gtest_filter = ""
        ∧ opts.performance_test = false))
    ∧ ((runAttempt env opts).sharded = false →
        ∀ c ∈ (runAttempt env opts).runner_calls,
          c.device = (devList env opts.use_emulator).headD "") := by
  by_cases hs : shardedSelected opts (devList env opts.use_emulator).length = true
  · rw [runAttempt_sharded_eq env opts hdev hs]
    have h3 := (shardedSelected_iff opts (devList env opts.use_emulator).length).mp hs
    constructor
    · simp only [true_iff]
      exact ⟨h3.1, h3.2.2.1, h3.2.2.2⟩
    · intro hfalse
      simp at hfalse
  · have hs2 : shardedSelected opts (devList env opts.use_emulator).length = false := by
      simpa using hs
    rw [runAttempt_single_eq env opts hdev hs2]
    constructor
    · simp only [Bool.false_eq_true, false_iff]
      intro hrhs
      exact hs ((shardedSelected_iff opts _).mpr ⟨hrhs.1, hts, hrhs.2.1, hrhs.2.2⟩)
    · intro _ c hc
      exact RunTests_calls_device env opts _ c hc

theorem claim_C5_witness :
    (runAttempt envTwoDevices (optsWithSuite "out/Release/net_unittests")).sharded = true :=
  ((claim_C5 envTwoDevices (optsWithSuite "out/Release/net_unittests")
    (by decide) (by decide)).1).mpr (by decide)

/-- Claim C6: an explicitly named suite that is neither an existing file nor
an .apk reference yields, on the single-device path, exactly one synthetic
failed record carrying the suite name with the timed-out and overall-fail
flags false, no runner invocation, no disabled-list write and no retry; the
suite contributes exactly 1 to the exit code and Dispatch, whose loop
unconditionally visits every resolved suite, continues past it. -/
theorem claim_C6 (env : Env) (opts : Options)
    (hts : opts.test_suite ≠ "") (hhelp : opts.test_suite ≠ "help")
    (hex : env.path_exists opts.test_suite = false)
    (hapk : hasApkExt opts.test_suite = false)
    (hone : (devList env opts.use_emulator).length = 1) :
    runATestSuite env opts =
      (1, opts,
       [{ fast_and_loose := opts.fast_and_loose, repeat_left := opts.«repeat»,
          sharded := false, runner_calls := [], filter_writes := [],
          results := some (TestResults.FromOkAndFailed []
            [{ name := opts.test_suite, log := "" }] false false) }])
    ∧ (Dispatch env opts).1 = 1
    ∧ (Dispatch env opts).2.2.length = 1 := by
  have hd : devList env opts.use_emulator ≠ [] := by
    intro h
    rw [h] at hone
    simp at hone
  have hs2 : shardedSelected opts (devList env opts.use_emulator).length = false := by
    simp [shardedSelected, hone]
  have hrt : RunTests env opts ((devList env opts.use_emulator).headD "")
      = (TestResults.FromOkAndFailed []
          [{ name := opts.test_suite, log := "" }] false false, [], []) := by
    unfold RunTests
    rw [if_pos hts, if_pos]
    simp [hex, hapk]
  have hatt := runAttempt_sharded_eq env opts hd
  have hatt2 := runAttempt_single_eq env opts hd hs2
  rw [hrt] at hatt2
  have hres : (runAttempt env opts).results
      = some (TestResults.FromOkAndFailed []
          [{ name := opts.test_suite, log := "" }] false false) := by
    rw [hatt2]
  have hstop : ¬((TestResults.FromOkAndFailed []
      [{ name := opts.test_suite, log := "" }] false false).timed_out = true
      ∧ opts.«repeat» ≠ 0) := by
    simp [TestResults.FromOkAndFailed]
  have h1 := runATestSuite_stop env opts _ hres hstop
  rw [hatt2] at h1
  have hmain : runATestSuite env opts =
      (1, opts,
       [{ fast_and_loose := opts.fast_and_loose, repeat_left := opts.«repeat»,
          sharded := false, runner_calls := [], filter_writes := [],
          results := some (TestResults.FromOkAndFailed []
            [{ name := opts.test_suite, log := "" }] false false) }]) := h1
  refine ⟨hmain, ?_, ?_⟩
  · unfold Dispatch
    rw [if_neg hhelp]
    unfold dispatchSuiteList
    rw [if_pos hts]
    have hself : { opts with test_suite := opts.test_suite } = opts := rfl
    simp only [List.foldl_cons, List.foldl_nil, dispatchStep, hself, hmain]
  · unfold Dispatch
    rw [if_neg hhelp]
    unfold dispatchSuiteList
    rw [if_pos hts]
    have hself : { opts with test_suite := opts.test_suite } = opts := rfl
    simp only [List.foldl_cons, List.foldl_nil, dispatchStep, hself, hmain]
    rfl

theorem RunShardedTests_writes (env : Env) (opts : Options) (devices : List String) :
    (RunShardedTests env opts devices).2.2 =
      (if !(RunShardedTests env opts devices).1.failed.isEmpty && opts.rebaseline then
        [{ writer_index := 0,
           failed_names := (RunShardedTests env opts devices).1.failed.map
             (fun b => b.name) }]
      else []) := rfl

theorem RunShardedTests_fst (env : Env) (opts : Options) (devices : List String) :
    (RunShardedTests env opts devices).1
      = TestResults.FromTestResults
          (((List.range devices.length).map
            (fun i => CreateShardedTestRunner opts (sharderTests env opts) devices i)).map
            env.run_outcome) := rfl

theorem runTestsLoop_single (env : Env) (opts : Options) (device : String) (t : String) :
    runTestsLoop env opts device [t]
      = (env.run_outcome
           { device := device, test_suite := t, test_filter := opts.gtest_filter,
             test_arguments := opts.test_arguments, timeout := opts.timeout,
             index := 0 },
         [{ device := device, test_suite := t, test_filter := opts.gtest_filter,
            test_arguments := opts.test_arguments, timeout := opts.timeout,
            index := 0 }],
         if opts.rebaseline then
           [{ writer_index := 0,
              failed_names := (env.run_outcome
                { device := device, test_suite := t, test_filter := opts.gtest_filter,
                  test_arguments := opts.test_arguments, timeout := opts.timeout,
                  index := 0 }).failed.map (fun b => b.name) }]
         else []) := by
  simp [runTestsLoop, FromTestResults_singleton]

theorem RunTests_found (env : Env) (opts : Options) (device : String)
    (hts : opts.test_suite ≠ "") (hex : env.path_exists opts.test_suite = true) :
    RunTests env opts device = runTestsLoop env opts device [opts.test_suite] := by
  unfold RunTests
  rw [if_pos hts]
  simp [hex]

/-- Claim C7: the disabled list is never written when rebaseline mode is off
(neither by the sharded driver nor by the single-device path); when
rebaseline is on and the merged sharded result has failures it is written
exactly once through the runner at index 0; when rebaseline is on and the
sharded failed set is empty it is not written; and on the single-device path
with rebaseline on the (sole) write also goes through the runner at
index 0. -/
theorem claim_C7 (env : Env) (opts : Options) (devices : List String)
    (device : String) (hts : opts.test_suite ≠ "")
    (hex : env.path_exists opts.test_suite = true) :
    (opts.rebaseline = false →
      (RunShardedTests env opts devices).2.2 = []
      ∧ (RunTests env opts device).2.2 = [])
    ∧ (opts.rebaseline = true →
      ((RunShardedTests env opts devices).1.failed ≠ [] →
        (RunShardedTests env opts devices).2.2
          = [{ writer_index := 0,
               failed_names := (RunShardedTests env opts devices).1.failed.map
                 (fun b => b.name) }])
      ∧ ((RunShardedTests env opts devices).1.failed = [] →
        (RunShardedTests env opts devices).2.2 = []))
    ∧ (opts.rebaseline = true →
      (RunTests env opts device).2.2
        = [{ writer_index := 0,
             failed_names := (RunTests env opts device).1.failed.map
               (fun b => b.name) }]) := by
  refine ⟨?_, ?_, ?_⟩
  · intro hrb
    constructor
    · rw [RunShardedTests_writes]
      simp [hrb]
    · rw [RunTests_found env opts device hts hex, runTestsLoop_single]
      simp [hrb]
  · intro hrb
    constructor
    · intro hf
      rw [RunShardedTests_writes]
      have hne : (RunShardedTests env opts devices).1.failed.isEmpty = false := by
        simp [List.isEmpty_iff, hf]
      simp [hne, hrb]
    · intro hf
      rw [RunShardedTests_writes]
      simp [hf, hrb]
  · intro hrb
    rw [RunTests_found env opts device hts hex, runTestsLoop_single]
    simp [hrb]

theorem claim_C7_witness :
    (RunShardedTests envTwoDevices (optsRebaseline "out/Release/net_unittests")
      ["dev0", "dev1"]).2.2
      = [{ writer_index := 0,
           failed_names := (RunShardedTests envTwoDevices
             (optsRebaseline "out/Release/net_unittests")
             ["dev0", "dev1"]).1.failed.map (fun b => b.name) }] :=
  ((claim_C7 envTwoDevices (optsRebaseline "out/Release/net_unittests")
      ["dev0", "dev1"] "dev0" (by decide) rfl).2.1 rfl).1 (by decide)

theorem runAttempt_fast (env : Env) (o : Options) :
    (runAttempt env o).fast_and_loose = o.fast_and_loose := by
  by_cases hd : devList env o.use_emulator = []
  · rw [runAttempt_no_device_eq env o hd]
  · by_cases hs : shardedSelected o (devList env o.use_emulator).length = true
    · rw [runAttempt_sharded_eq env o hd hs]
    · rw [runAttempt_single_eq env o hd (by simpa using hs)]

theorem any_timed_out_of_all {rs : List TestResults} (hne : rs ≠ [])
    (hall : ∀ r ∈ rs, r.timed_out = true) :
    rs.any (fun r => r.timed_out) = true := by
  cases rs with
  | nil => simp at hne
  | cons r rs => simp [hall r (by simp)]

theorem runAttempt_timed_out (env : Env) (opts : Options)
    (hdev : devList env opts.use_emulator ≠ [])
    (hts : opts.test_suite ≠ "")
    (hex : env.path_exists opts.test_suite = true)
    (htime : ∀ c, (env.run_outcome c).timed_out = true) :
    ∃ tr, (runAttempt env opts).results = some tr ∧ tr.timed_out = true := by
  by_cases hs : shardedSelected opts (devList env opts.use_emulator).length = true
  · rw [runAttempt_sharded_eq env opts hdev hs]
    refine ⟨_, rfl, ?_⟩
    rw [RunShardedTests_fst, FromTestResults_timed_out]
    apply any_timed_out_of_all
    · have hlen : (devList env opts.use_emulator).length ≠ 0 := by
        simpa [List.length_eq_zero] using hdev
      simp [hlen]
    · intro r hr
      simp only [List.mem_map] at hr
      obtain ⟨c, _, rfl⟩ := hr
      exact htime c
  · rw [runAttempt_single_eq env opts hdev (by simpa using hs)]
    refine ⟨_, rfl, ?_⟩
    rw [RunTests_found env opts _ hts hex, runTestsLoop_single]
    exact htime _

/-- Claim C3: for a suite whose every run reports a timeout and a retry
budget of 2, the dispatcher performs exactly 3 attempts, the 2nd and 3rd of
which run with the fast-and-loose flag set, and the returned failure count
is the failed-set size of the 3rd attempt's (timed-out) results. -/
theorem claim_C3 (env : Env) (opts : Options)
    (hdev : devList env opts.use_emulator ≠ [])
    (hts : opts.test_suite ≠ "")
    (hex : env.path_exists opts.test_suite = true)
    (htime : ∀ c, (env.run_outcome c).timed_out = true)
    (hrep : opts.«repeat» = 2) :
    (runATestSuite env opts).2.2.length = 3
    ∧ (runATestSuite env opts).2.2.map (fun a => a.fast_and_loose)
        = [opts.fast_and_loose, true, true]
    ∧ ∃ a, (runATestSuite env opts).2.2.getLast? = some a
        ∧ ∃ r, a.results = some r ∧ r.timed_out = true
          ∧ (runATestSuite env opts).1 = r.failed.length := by
  obtain ⟨tr1, hres1, hto1⟩ := runAttempt_timed_out env opts hdev hts hex htime
  have e1 := runATestSuite_retry env opts tr1 hres1 hto1 (by omega)
  set opts1 : Options :=
    { opts with fast_and_loose := true, «repeat» := opts.«repeat» - 1 } with hopts1
  have hrep1 : opts1.«repeat» = 1 := by
    show opts.«repeat» - 1 = 1
    omega
  obtain ⟨tr2, hres2, hto2⟩ := runAttempt_timed_out env opts1 hdev hts hex htime
  have e2 := runATestSuite_retry env opts1 tr2 hres2 hto2 (by omega)
  set opts2 : Options :=
    { opts1 with fast_and_loose := true, «repeat» := opts1.«repeat» - 1 } with hopts2
  have hrep2 : opts2.«repeat» = 0 := by
    show opts.«repeat» - 1 - 1 = 0
    omega
  obtain ⟨tr3, hres3, hto3⟩ := runAttempt_timed_out env opts2 hdev hts hex htime
  have e3 := runATestSuite_stop env opts2 tr3 hres3
    (fun hcon => hcon.2 hrep2)
  rw [e2, e3] at e1
  rw [e1]
  refine ⟨by simp, ?_, ?_⟩
  · simp [runAttempt_fast]
  · exact ⟨runAttempt env opts2, by simp, tr3, hres3, hto3, rfl⟩

theorem claim_C3_witness :
    (runATestSuite envOneDeviceTimeout (optsWithSuite "s")).2.2.length = 3
    ∧ (runATestSuite envOneDeviceTimeout (optsWithSuite "s")).2.2.map
        (fun a => a.fast_and_loose)
      = [(optsWithSuite "s").fast_and_loose, true, true] :=
  ⟨(claim_C3 envOneDeviceTimeout (optsWithSuite "s") (by decide) (by decide) rfl
      (fun _ => rfl) rfl).1,
   (claim_C3 envOneDeviceTimeout (optsWithSuite "s") (by decide) (by decide) rfl
      (fun _ => rfl) rfl).2.1⟩

theorem claim_C6_witness :
    runATestSuite envOneDeviceMissing (optsWithSuite "no_such_suite") =
      (1, optsWithSuite "no_such_suite",
       [{ fast_and_loose := (optsWithSuite "no_such_suite").fast_and_loose,
          repeat_left := (optsWithSuite "no_such_suite").«repeat»,
          sharded := false, runner_calls := [], filter_writes := [],
          results := some (TestResults.FromOkAndFailed []
            [{ name := "no_such_suite", log := "" }] false false) }])
    ∧ (Dispatch envOneDeviceMissing (optsWithSuite "no_such_suite")).1 = 1 :=
  ⟨(claim_C6 envOneDeviceMissing (optsWithSuite "no_such_suite") (by decide)
      (by decide) (by decide) (by decide) (by decide)).1,
   (claim_C6 envOneDeviceMissing (optsWithSuite "no_such_suite") (by decide)
      (by decide) (by decide) (by decide) (by decide)).2.1⟩

theorem runATestSuite_ne_nil (env : Env) (opts : Options) :
    (runATestSuite env opts).2.2 ≠ [] := by
  cases h : (runAttempt env opts).results with
  | none => rw [runATestSuite_no_device env opts h]; simp
  | some tr =>
    by_cases hc : tr.timed_out = true ∧ opts.«repeat» ≠ 0
    · rw [runATestSuite_retry env opts tr h hc.1 hc.2]; simp
    · rw [runATestSuite_stop env opts tr h hc]; simp

theorem runATestSuite_use_emulator (env : Env) (opts : Options) :
    (runATestSuite env opts).2.1.use_emulator = opts.use_emulator := by
  generalize hn : opts.«repeat» = n
  induction n using Nat.strong_induction_on generalizing opts with
  | _ n ih =>
    cases h : (runAttempt env opts).results with
    | none => rw [runATestSuite_no_device env opts h]
    | some tr =>
      by_cases hc : tr.timed_out = true ∧ opts.«repeat» ≠ 0
      · have h2 : opts.«repeat» ≠ 0 := hc.2
        rw [runATestSuite_retry env opts tr h hc.1 h2]
        exact ih (opts.«repeat» - 1) (by omega) _ rfl
      · rw [runATestSuite_stop env opts tr h hc]

theorem runATestSuite_final (env : Env) (opts : Options)
    (hdev : devList env opts.use_emulator ≠ []) :
    ∃ a r, (runATestSuite env opts).2.2.getLast? = some a ∧ a.results = some r
      ∧ (runATestSuite env opts).1 = r.failed.length := by
  generalize hn : opts.«repeat» = n
  induction n using Nat.strong_induction_on generalizing opts with
  | _ n ih =>
    cases h : (runAttempt env opts).results with
    | none => exact absurd ((runAttempt_results_none_iff env opts).mp h) hdev
    | some tr =>
      by_cases hc : tr.timed_out = true ∧ opts.«repeat» ≠ 0
      · have h2 : opts.«repeat» ≠ 0 := hc.2
        rw [runATestSuite_retry env opts tr h hc.1 h2]
        obtain ⟨a, r, hlast, hres, hlen⟩ := ih (opts.«repeat» - 1) (by omega)
          { opts with fast_and_loose := true, «repeat» := opts.«repeat» - 1 }
          hdev rfl
        refine ⟨a, r, ?_, hres, hlen⟩
        obtain ⟨b, l', hbl⟩ := List.exists_cons_of_ne_nil (runATestSuite_ne_nil env
          { opts with fast_and_loose := true, «repeat» := opts.«repeat» - 1 })
        rw [hbl, List.getLast?_cons_cons, ← hbl]
        exact hlast
      · rw [runATestSuite_stop env opts tr h hc]
        exact ⟨runAttempt env opts, tr, rfl, h, rfl⟩

theorem runATestSuite_fast_list (env : Env) (opts : Options) :
    (runATestSuite env opts).2.2.map (fun a => a.fast_and_loose)
      = opts.fast_and_loose
        :: List.replicate ((runATestSuite env opts).2.2.length - 1) true := by
  generalize hn : opts.«repeat» = n
  induction n using Nat.strong_induction_on generalizing opts with
  | _ n ih =>
    cases h : (runAttempt env opts).results with
    | none =>
      rw [runATestSuite_no_device env opts h]
      simp [runAttempt_fast]
    | some tr =>
      by_cases hc : tr.timed_out = true ∧ opts.«repeat» ≠ 0
      · have h2 : opts.«repeat» ≠ 0 := hc.2
        rw [runATestSuite_retry env opts tr h hc.1 h2]
        set o' : Options :=
          { opts with fast_and_loose := true, «repeat» := opts.«repeat» - 1 }
          with ho'
        have hrec := ih (opts.«repeat» - 1) (by omega) o' rfl
        have hpos : 0 < (runATestSuite env o').2.2.length :=
          List.length_pos.mpr (runATestSuite_ne_nil env o')
        have hfl : o'.fast_and_loose = true := rfl
        rw [hfl] at hrec
        simp only [List.map_cons, List.length_cons, Nat.add_sub_cancel]
        rw [hrec, runAttempt_fast]
        have hlen : (runATestSuite env o').2.2.length
            = ((runATestSuite env o').2.2.length - 1) + 1 := by omega
        conv_rhs => rw [hlen, List.replicate_succ]
      · rw [runATestSuite_stop env opts tr h hc]
        simp [runAttempt_fast]

theorem runATestSuite_final_fast (env : Env) (opts : Options) :
    (runATestSuite env opts).2.1.fast_and_loose
      = (opts.fast_and_loose
          || decide (1 < (runATestSuite env opts).2.2.length)) := by
  generalize hn : opts.«repeat» = n
  induction n using Nat.strong_induction_on generalizing opts with
  | _ n ih =>
    cases h : (runAttempt env opts).results with
    | none => rw [runATestSuite_no_device env opts h]; simp
    | some tr =>
      by_cases hc : tr.timed_out = true ∧ opts.«repeat» ≠ 0
      · have h2 : opts.«repeat» ≠ 0 := hc.2
        rw [runATestSuite_retry env opts tr h hc.1 h2]
        set o' : Options :=
          { opts with fast_and_loose := true, «repeat» := opts.«repeat» - 1 }
          with ho'
        have hrec := ih (opts.«repeat» - 1) (by omega) o' rfl
        have h3 : (runATestSuite env o').2.1.fast_and_loose = true := by
          rw [hrec]; rfl
        have hpos : 0 < (runATestSuite env o').2.2.length :=
          List.length_pos.mpr (runATestSuite_ne_nil env o')
        have h5 : 1 < (runATestSuite env o').2.2.length + 1 := by omega
        simp [h3, h5]
      · rw [runATestSuite_stop env opts tr h hc]
        simp

theorem Dispatch_single (env : Env) (opts : Options) (hts : opts.test_suite ≠ "")
    (hhelp : opts.test_suite ≠ "help") :
    Dispatch env opts
      = ((runATestSuite env opts).1, (runATestSuite env opts).2.1,
         [(opts.test_suite, (runATestSuite env opts).2.2)]) := by
  unfold Dispatch
  rw [if_neg hhelp]
  unfold dispatchSuiteList
  rw [if_pos hts]
  simp only [List.foldl_cons, List.foldl_nil, dispatchStep]
  have hself : ({ opts with test_suite := opts.test_suite } : Options) = opts := rfl
  simp [hself]

theorem dispatch_fold_no_device (env : Env) (ue : Nat) (hdev : devList env ue = []) :
    ∀ (suites : List String) (acc : Nat × Options × List (String × List Attempt)),
      acc.2.1.use_emulator = ue →
      ((suites.foldl (dispatchStep env) acc).1 = acc.1 + suites.length
      ∧ (suites.foldl (dispatchStep env) acc).2.2.map Prod.fst
          = acc.2.2.map Prod.fst ++ suites
      ∧ (suites.foldl (dispatchStep env) acc).2.1.use_emulator = ue
      ∧ ∀ p ∈ (suites.foldl (dispatchStep env) acc).2.2,
          p ∈ acc.2.2
          ∨ p.2.map (fun a => (a.runner_calls, a.filter_writes, a.results))
              = [([], [], none)]) := by
  intro suites
  induction suites with
  | nil =>
    intro acc hacc
    exact ⟨by simp, by simp, hacc, fun p hp => Or.inl hp⟩
  | cons s ss ihs =>
    intro acc hacc
    have hd' : devList env
        ({ acc.2.1 with test_suite := s } : Options).use_emulator = [] := by
      show devList env acc.2.1.use_emulator = []
      rw [hacc]
      exact hdev
    have hres : (runAttempt env { acc.2.1 with test_suite := s }).results = none :=
      (runAttempt_results_none_iff _ _).mpr hd'
    have hstep : dispatchStep env acc s
        = (acc.1 + 1, { acc.2.1 with test_suite := s },
           acc.2.2 ++ [(s, [runAttempt env { acc.2.1 with test_suite := s }])]) := by
      unfold dispatchStep
      rw [runATestSuite_no_device env _ hres]
    rw [List.foldl_cons, hstep]
    obtain ⟨h1, h2, h3, h4⟩ := ihs (acc.1 + 1, { acc.2.1 with test_suite := s },
      acc.2.2 ++ [(s, [runAttempt env { acc.2.1 with test_suite := s }])]) hacc
    refine ⟨?_, ?_, h3, ?_⟩
    · rw [h1]
      simp
      omega
    · rw [h2]
      simp
    · intro p hp
      rcases h4 p hp with hin | hrec
      · rcases List.mem_append.mp hin with hin2 | hin3
        · exact Or.inl hin2
        · right
          have hp2 : p = (s, [runAttempt env { acc.2.1 with test_suite := s }]) := by
            simpa using hin3
          rw [hp2]
          simp [runAttempt_no_device_eq env _ hd']
      · exact Or.inr hrec

theorem dispatch_no_device (env : Env) (opts : Options)
    (hdev : devList env opts.use_emulator = [])
    (hhelp : opts.test_suite ≠ "help") :
    (Dispatch env opts).1 = (dispatchSuiteList opts).length
    ∧ (Dispatch env opts).2.2.map Prod.fst = dispatchSuiteList opts
    ∧ ∀ p ∈ (Dispatch env opts).2.2,
        p.2.map (fun a => (a.runner_calls, a.filter_writes, a.results))
          = [([], [], none)] := by
  unfold Dispatch
  rw [if_neg hhelp]
  obtain ⟨h1, h2, h3, h4⟩ := dispatch_fold_no_device env opts.use_emulator hdev
    (dispatchSuiteList opts) (0, opts, []) rfl
  refine ⟨by simpa using h1, by simpa using h2, ?_⟩
  intro p hp
  rcases h4 p hp with hin | hrec
  · simp at hin
  · exact hrec

/-- Claim C2 (amended): when zero targets are available, each suite run
returns 1 immediately: no TestRunner is invoked and no per-test result
record is produced for any suite; but the batch is not aborted: Dispatch
still visits every resolved suite, and each such suite contributes exactly 1
to the accumulated exit code, so the batch returns the number of resolved
suites rather than a dedicated fatal condition. -/
theorem claim_C2_amended (env : Env) (opts : Options)
    (hdev : devList env opts.use_emulator = [])
    (hhelp : opts.test_suite ≠ "help") :
    (Dispatch env opts).1 = (dispatchSuiteList opts).length
    ∧ (Dispatch env opts).2.2.map Prod.fst = dispatchSuiteList opts
    ∧ ∀ p ∈ (Dispatch env opts).2.2,
        p.2.map (fun a => (a.runner_calls, a.filter_writes, a.results))
          = [([], [], none)] :=
  dispatch_no_device env opts hdev hhelp

theorem claim_C2_amended_witness :
    (Dispatch envNoDevices (optsWithSuite "s")).1
        = (dispatchSuiteList (optsWithSuite "s")).length
    ∧ (Dispatch envNoDevices (optsWithSuite "s")).2.2.map Prod.fst
        = dispatchSuiteList (optsWithSuite "s")
    ∧ ∀ p ∈ (Dispatch envNoDevices (optsWithSuite "s")).2.2,
        p.2.map (fun a => (a.runner_calls, a.filter_writes, a.results))
          = [([], [], none)] :=
  claim_C2_amended envNoDevices (optsWithSuite "s") (by decide) (by decide)

/-- Claim C2 is refuted on this input: with zero attached devices, no
emulator request and no explicit suite, Dispatch does not abort the batch at
the zero-target condition; it visits all 8 catalog suites (the log lists
every one of them) and returns 8, counting each zero-target suite as one
failure in the exit code, where an aborting fatal path would not have
proceeded past the first suite. -/
theorem claim_C2_counterexample :
    (Dispatch envNoDevices optsBase).1 = 8
    ∧ (Dispatch envNoDevices optsBase).2.2.map Prod.fst
        = FullyQualifiedTestSuites false := by
  obtain ⟨h1, h2, h3⟩ := dispatch_no_device envNoDevices optsBase
    (by decide) (by decide)
  constructor
  · rw [h1]
    rfl
  · rw [h2]
    rfl

theorem dispatch_fold_device (env : Env) (ue : Nat) (hdev : devList env ue ≠ []) :
    ∀ (suites : List String) (acc : Nat × Options × List (String × List Attempt)),
      acc.2.1.use_emulator = ue →
      acc.1 = (acc.2.2.map (fun p => suiteFailedTotal p.2)).sum →
      ((suites.foldl (dispatchStep env) acc).2.1.use_emulator = ue
      ∧ (suites.foldl (dispatchStep env) acc).1
          = ((suites.foldl (dispatchStep env) acc).2.2.map
              (fun p => suiteFailedTotal p.2)).sum) := by
  intro suites
  induction suites with
  | nil => intro acc hacc hsum; exact ⟨hacc, hsum⟩
  | cons s ss ihs =>
    intro acc hacc hsum
    rw [List.foldl_cons]
    have hdev' : devList env
        ({ acc.2.1 with test_suite := s } : Options).use_emulator ≠ [] := by
      show devList env acc.2.1.use_emulator ≠ []
      rw [hacc]
      exact hdev
    obtain ⟨a, r, hlast, hres, hn⟩ :=
      runATestSuite_final env { acc.2.1 with test_suite := s } hdev'
    have hstep_ue : (dispatchStep env acc s).2.1.use_emulator = ue := by
      show (runATestSuite env { acc.2.1 with test_suite := s }).2.1.use_emulator = ue
      rw [runATestSuite_use_emulator]
      exact hacc
    have htotal : suiteFailedTotal
        (runATestSuite env { acc.2.1 with test_suite := s }).2.2
        = (runATestSuite env { acc.2.1 with test_suite := s }).1 := by
      simp [suiteFailedTotal, hlast, hres, hn]
    have hstep_sum : (dispatchStep env acc s).1
        = ((dispatchStep env acc s).2.2.map (fun p => suiteFailedTotal p.2)).sum := by
      show acc.1 + (runATestSuite env { acc.2.1 with test_suite := s }).1
          = ((acc.2.2
              ++ [(s, (runATestSuite env { acc.2.1 with test_suite := s }).2.2)]).map
                (fun p => suiteFailedTotal p.2)).sum
      rw [List.map_append, List.sum_append, ← hsum]
      simp [htotal]
    exact ihs (dispatchStep env acc s) hstep_ue hstep_sum

/-- Claim C4 (amended): whenever the target list is non-empty, the value
Dispatch returns (the process exit code) is the sum over all dispatched
suites of the failed-set size of that suite's final results, independent of
the ok and timed-out sets, with 0 meaning success; a suite run finding zero
targets would instead contribute a flat 1 that corresponds to no failed
test. -/
theorem claim_C4_amended (env : Env) (opts : Options)
    (hdev : devList env opts.use_emulator ≠ []) :
    (Dispatch env opts).1
      = ((Dispatch env opts).2.2.map (fun p => suiteFailedTotal p.2)).sum := by
  unfold Dispatch
  by_cases hhelp : opts.test_suite = "help"
  · rw [if_pos hhelp]
    simp
  · rw [if_neg hhelp]
    exact (dispatch_fold_device env opts.use_emulator hdev (dispatchSuiteList opts)
      (0, opts, []) rfl (by simp)).2

theorem claim_C4_amended_witness :
    (Dispatch envTwoDevices (optsWithSuite "out/Release/net_unittests")).1
      = ((Dispatch envTwoDevices
          (optsWithSuite "out/Release/net_unittests")).2.2.map
            (fun p => suiteFailedTotal p.2)).sum :=
  claim_C4_amended envTwoDevices (optsWithSuite "out/Release/net_unittests")
    (by decide)

/-- Claim C4 is refuted on this input: with zero attached devices and one
explicit suite, Dispatch returns 1 although no test ran and every final
failed set is empty (the suiteFailedTotal sum over the log is 0), so the
exit code is not the sum of failed-set sizes in the zero-target case. -/
theorem claim_C4_counterexample :
    (Dispatch envNoDevices (optsWithSuite "missing")).1 = 1
    ∧ ((Dispatch envNoDevices (optsWithSuite "missing")).2.2.map
        (fun p => suiteFailedTotal p.2)).sum = 0 := by
  have hdl : devList envNoDevices (optsWithSuite "missing").use_emulator = [] := by
    decide
  have hres : (runAttempt envNoDevices (optsWithSuite "missing")).results = none :=
    (runAttempt_results_none_iff _ _).mpr hdl
  have hrun := runATestSuite_no_device envNoDevices (optsWithSuite "missing") hres
  have hd := Dispatch_single envNoDevices (optsWithSuite "missing")
    (by decide) (by decide)
  rw [hrun] at hd
  rw [hd]
  constructor
  · rfl
  · have hatt := runAttempt_no_device_eq envNoDevices (optsWithSuite "missing") hdl
    simp [suiteFailedTotal, hatt]

theorem pairwise_imp_replicate (m : Nat) :
    List.Pairwise (fun x y : Bool => x = true → y = true)
      (List.replicate m true) := by
  induction m with
  | zero => simp
  | succ k ihk =>
    rw [List.replicate_succ]
    exact List.Pairwise.cons (fun y hy _ => List.eq_of_mem_replicate hy) ihk

theorem pairwise_imp_cons_replicate (b : Bool) (m : Nat) :
    List.Pairwise (fun x y : Bool => x = true → y = true)
      (b :: List.replicate m true) :=
  List.Pairwise.cons (fun y hy _ => List.eq_of_mem_replicate hy)
    (pairwise_imp_replicate m)

theorem fastFlags_append (l1 l2 : List (String × List Attempt)) :
    fastFlags (l1 ++ l2) = fastFlags l1 ++ fastFlags l2 := by
  simp [fastFlags]

theorem fastFlags_single (s : String) (atts : List Attempt) :
    fastFlags [(s, atts)] = atts.map (fun a => a.fast_and_loose) := by
  simp [fastFlags]

theorem dispatch_fold_fast (env : Env) (f0 : Bool) :
    ∀ (suites : List String) (acc : Nat × Options × List (String × List Attempt)),
      List.Pairwise (fun a b : Bool => a = true → b = true) (fastFlags acc.2.2) →
      (fastFlags acc.2.2).headD acc.2.1.fast_and_loose = f0 →
      (∀ b ∈ fastFlags acc.2.2, b = true → acc.2.1.fast_and_loose = true) →
      (List.Pairwise (fun a b : Bool => a = true → b = true)
          (fastFlags (suites.foldl (dispatchStep env) acc).2.2)
      ∧ (fastFlags (suites.foldl (dispatchStep env) acc).2.2).headD
          (suites.foldl (dispatchStep env) acc).2.1.fast_and_loose = f0
      ∧ (∀ b ∈ fastFlags (suites.foldl (dispatchStep env) acc).2.2, b = true →
          (suites.foldl (dispatchStep env) acc).2.1.fast_and_loose = true)) := by
  intro suites
  induction suites with
  | nil => intro acc h1 h2 h3; exact ⟨h1, h2, h3⟩
  | cons s ss ihs =>
    intro acc h1 h2 h3
    rw [List.foldl_cons]
    set o' : Options := { acc.2.1 with test_suite := s } with ho'
    have hmap := runATestSuite_fast_list env o'
    have hff := runATestSuite_final_fast env o'
    have hpos : 0 < (runATestSuite env o').2.2.length :=
      List.length_pos.mpr (runATestSuite_ne_nil env o')
    have hofast : o'.fast_and_loose = acc.2.1.fast_and_loose := rfl
    have hflags : fastFlags (dispatchStep env acc s).2.2
        = fastFlags acc.2.2
          ++ (acc.2.1.fast_and_loose
              :: List.replicate ((runATestSuite env o').2.2.length - 1) true) := by
      show fastFlags (acc.2.2 ++ [(s, (runATestSuite env o').2.2)]) = _
      rw [fastFlags_append, fastFlags_single, hmap, hofast]
    have hstepfast : (dispatchStep env acc s).2.1.fast_and_loose
        = (acc.2.1.fast_and_loose
            || decide (1 < (runATestSuite env o').2.2.length)) := by
      show (runATestSuite env o').2.1.fast_and_loose = _
      rw [hff, hofast]
    apply ihs
    · rw [hflags, List.pairwise_append]
      refine ⟨h1, pairwise_imp_cons_replicate _ _, ?_⟩
      intro a ha b hb hat
      have hF : acc.2.1.fast_and_loose = true := h3 a ha hat
      rcases List.mem_cons.mp hb with hb1 | hb2
      · rw [hb1]
        exact hF
      · exact List.eq_of_mem_replicate hb2
    · rw [hflags, hstepfast]
      cases hfl : fastFlags acc.2.2 with
      | nil =>
        rw [hfl] at h2
        simp only [List.headD] at h2
        simp [h2]
      | cons x xs =>
        rw [hfl] at h2
        simp only [List.headD] at h2
        simp [h2]
    · rw [hflags, hstepfast]
      intro b hb hbt
      rcases List.mem_append.mp hb with hold | hseg
      · rw [h3 b hold hbt]
        simp
      · rcases List.mem_cons.mp hseg with hb1 | hb2
        · rw [hb1] at hbt
          rw [hbt]
          simp
        · have hlen : (runATestSuite env o').2.2.length - 1 ≠ 0 :=
            (List.mem_replicate.mp hb2).1
          have h5 : 1 < (runATestSuite env o').2.2.length := by omega
          simp [h5]

/-- Claim C8: in any Dispatch invocation the per-attempt fast-and-loose
flags, taken in execution order over all suites, are monotone: once an
attempt runs with the flag set, every later attempt of that suite and of
every later suite runs with it set too (the flag is never reset); and the
first attempt of the batch runs with the caller's initial flag. -/
theorem claim_C8 (env : Env) (opts : Options) :
    List.Pairwise (fun a b : Bool => a = true → b = true)
      (fastFlags (Dispatch env opts).2.2)
    ∧ (fastFlags (Dispatch env opts).2.2).headD opts.fast_and_loose
        = opts.fast_and_loose := by
  by_cases hhelp : opts.test_suite = "help"
  · unfold Dispatch
    rw [if_pos hhelp]
    simp [fastFlags]
  · unfold Dispatch
    rw [if_neg hhelp]
    obtain ⟨h1, h2, h3⟩ := dispatch_fold_fast env opts.fast_and_loose
      (dispatchSuiteList opts) (0, opts, [])
      (by simp [fastFlags]) (by simp [fastFlags]) (by simp [fastFlags])
    refine ⟨h1, ?_⟩
    cases hfl : fastFlags
        ((dispatchSuiteList opts).foldl (dispatchStep env) (0, opts, [])).2.2 with
    | nil => rfl
    | cons x xs =>
      rw [hfl] at h2
      simpa using h2

end RunTestsModel
